import Mathlib

/-!
Verification of the augmentation-preset selector of `segm-models`
(`src/augmentations.py`).  The file shallowly embeds the transform
descriptors built by the Python module as an inductive type of inert
configuration values, translates each builder function, and proves the
testable properties of the specification about them.
-/

set_option linter.unusedVariables false

namespace Augmentations

/-- OpenCV border-mode constant `cv2.BORDER_CONSTANT`. -/
def BORDER_CONSTANT : Nat := 0

/-- OpenCV border-mode constant `cv2.BORDER_REFLECT101`. -/
def BORDER_REFLECT101 : Nat := 4

/-- A transform descriptor, mirroring the albumentations configuration
objects constructed in `augmentations.py`.  Each constructor records
exactly the arguments the source passes explicitly; arguments left to the
library defaults are not recorded (`brightnessByMax` is `none` when the
source calls `A.RandomBrightnessContrast()` with no arguments). -/
inductive Descriptor where
  | randomRotate90 (p : ℚ)
  | transposeT (p : ℚ)
  | downscale (scaleMin scaleMax : ℚ) (alwaysApply : Bool)
  | randomBrightnessContrast (brightnessByMax : Option Bool)
  | shiftScaleRotate (scaleLimit : ℚ) (rotateLimit : ℕ) (borderMode : Nat)
  | horizontalFlip
  | gaussianBlur
  | noOp
  | coarseDropout
  | gaussNoise
  | clahe
  | hueSaturationValue
  | rgbShift
  | randomGamma
  | fancyPCA
  | elasticTransform (borderMode : Nat) (alphaAffine : ℚ)
  | randomGridShuffle
  | randomFog (fogCoefLower fogCoefUpper p : ℚ)
  | randomSizedCrop (minMaxHeight : ℤ × ℤ) (height width : ℕ)
  | cropNonEmptyMaskIfExists (height width : ℕ)
  | resize (height width : ℕ)
  | oneOf (children : List Descriptor)
  | oneOrOther (first second : Descriptor)
  | sequenceOf (children : List Descriptor)

open Descriptor

/-- `crop_transform(image_size, min_scale=0.75, max_scale=1.25, input_size=5000)`:
an either/or choice between a random-sized crop whose window is
`(int(h*min_scale), int(min(input_size, h*max_scale)))` and a
non-empty-mask-biased crop, both at the fixed output size. -/
def crop_transform (image_size : ℕ × ℕ) (min_scale : ℚ) (max_scale : ℚ)
    (input_size : ℕ) : Descriptor :=
  oneOrOther
    (randomSizedCrop
      (⌊(image_size.1 : ℚ) * min_scale⌋,
       ⌊min (input_size : ℚ) ((image_size.1 : ℚ) * max_scale)⌋)
      image_size.1 image_size.2)
    (cropNonEmptyMaskIfExists image_size.1 image_size.2)

/-- `crop_transform` at its Python default arguments
(`min_scale=0.75, max_scale=1.25, input_size=5000`). -/
def crop_transform_default (image_size : ℕ × ℕ) : Descriptor :=
  crop_transform image_size (3/4) (5/4) 5000

/-- `crop_transform_xview2(image_size, min_scale=0.4, max_scale=0.75, input_size=1024)`:
like `crop_transform`, but the mask-biased branch is preceded by a resize
to `input_size * 2` square. -/
def crop_transform_xview2 (image_size : ℕ × ℕ) (min_scale : ℚ) (max_scale : ℚ)
    (input_size : ℕ) : Descriptor :=
  oneOrOther
    (randomSizedCrop
      (⌊(image_size.1 : ℚ) * min_scale⌋,
       ⌊min (input_size : ℚ) ((image_size.1 : ℚ) * max_scale)⌋)
      image_size.1 image_size.2)
    (sequenceOf
      [resize (input_size * 2) (input_size * 2),
       cropNonEmptyMaskIfExists image_size.1 image_size.2])

/-- `crop_transform_xview2` at its Python default arguments
(`min_scale=0.4, max_scale=0.75, input_size=1024`). -/
def crop_transform_xview2_default (image_size : ℕ × ℕ) : Descriptor :=
  crop_transform_xview2 image_size (2/5) (3/4) 1024

/-- `safe_augmentations()`. -/
def safe_augmentations : List Descriptor :=
  [randomRotate90 1,
   transposeT (1/2)]

/-- `light_augmentations(mask_dropout=True)`; the `mask_dropout` argument
is accepted by the Python signature but never read. -/
def light_augmentations (mask_dropout : Bool) : List Descriptor :=
  [downscale (3/10) (3/10) true,
   randomRotate90 1,
   transposeT (1/2),
   randomBrightnessContrast none,
   shiftScaleRotate (1/20) 15 BORDER_CONSTANT]

/-- `medium_augmentations(for_3ch_img=True, mask_dropout=True)`; the
`mask_dropout` argument is accepted by the Python signature but never
read (the mask-dropout descriptor is commented out in the source). -/
def medium_augmentations (for_3ch_img : Bool) (mask_dropout : Bool) :
    List Descriptor :=
  [horizontalFlip,
   shiftScaleRotate (1/10) 15 BORDER_CONSTANT,
   oneOf [gaussianBlur, noOp],
   oneOf [coarseDropout, noOp],
   gaussNoise,
   if for_3ch_img then
     oneOf
       [randomBrightnessContrast (some true),
        clahe,
        hueSaturationValue,
        rgbShift,
        randomGamma]
   else
     oneOf
       [randomBrightnessContrast (some true),
        randomGamma],
   if for_3ch_img then randomFog (1/100) (3/10) (1/10) else noOp]

/-- `hard_augmentations(for_3ch_img=True, mask_dropout=True)`; the
`mask_dropout` argument is accepted by the Python signature but never
read (the mask-dropout descriptor is commented out in the source). -/
def hard_augmentations (for_3ch_img : Bool) (mask_dropout : Bool) :
    List Descriptor :=
  [randomRotate90 1,
   transposeT (1/2),
   oneOf
     [shiftScaleRotate (1/5) 45 BORDER_REFLECT101,
      elasticTransform BORDER_REFLECT101 5],
   if for_3ch_img then
     oneOf
       [randomBrightnessContrast (some true),
        clahe,
        fancyPCA,
        hueSaturationValue,
        rgbShift,
        randomGamma]
   else
     oneOf
       [randomBrightnessContrast (some true),
        randomGamma],
   oneOf [randomGridShuffle, coarseDropout],
   oneOf [gaussianBlur, gaussNoise],
   if for_3ch_img then randomFog (1/100) (3/10) (1/10) else noOp]

/-- `one_augmentations(mask_dropout=True)`; the `mask_dropout` argument
is accepted by the Python signature but never read. -/
def one_augmentations (mask_dropout : Bool) : List Descriptor :=
  [randomRotate90 1,
   transposeT (1/2),
   randomBrightnessContrast (some true),
   clahe,
   fancyPCA,
   hueSaturationValue,
   rgbShift,
   randomGamma]

/-- `get_augmentations(augmentation, for_3ch_img=True)`: string dispatch
to the preset builders; unknown names yield the empty list.  The Python
source calls `light_augmentations()`, `safe_augmentations()` and
`one_augmentations()` with their default `mask_dropout=True`. -/
def get_augmentations (augmentation : String) (for_3ch_img : Bool) :
    List Descriptor :=
  if augmentation = "hard" then hard_augmentations for_3ch_img true
  else if augmentation = "medium" then medium_augmentations for_3ch_img true
  else if augmentation = "light" then light_augmentations true
  else if augmentation = "safe" then safe_augmentations
  else if augmentation = "one" then one_augmentations true
  else []

/-- The `(lower, upper)` random-crop window of the random-sized-crop
branch of a crop descriptor, when it has one. -/
def cropWindow : Descriptor → Option (ℤ × ℤ)
  | oneOrOther (randomSizedCrop mm _ _) _ => some mm
  | _ => none

/-- The children of a choose-one composite (empty for any other
descriptor shape). -/
def oneOfChildren : Descriptor → List Descriptor
  | oneOf cs => cs
  | _ => []

/-- The second (right) branch of a choose-either composite, when the
descriptor has one. -/
def secondBranch : Descriptor → Option Descriptor
  | oneOrOther _ s => some s
  | _ => none

end Augmentations

open Augmentations Augmentations.Descriptor

/-- C1: for every recognized preset name and every value of the
three-channel flag, `get_augmentations` returns a non-empty sequence of
the fixed length: safe=2, light=5, medium=7, hard=7, one=8. -/
theorem C1_preset_lengths (b : Bool) :
    (get_augmentations "safe" b).length = 2 ∧
    (get_augmentations "light" b).length = 5 ∧
    (get_augmentations "medium" b).length = 7 ∧
    (get_augmentations "hard" b).length = 7 ∧
    (get_augmentations "one" b).length = 8 := by
  cases b <;> exact ⟨rfl, rfl, rfl, rfl, rfl⟩

/-- C2: for every string that is none of the five recognized preset
names and every flag value, `get_augmentations` returns the empty
sequence. -/
theorem C2_unknown_name_empty (s : String) (b : Bool)
    (h1 : s ≠ "safe") (h2 : s ≠ "light") (h3 : s ≠ "medium")
    (h4 : s ≠ "hard") (h5 : s ≠ "one") :
    get_augmentations s b = [] := by
  simp [get_augmentations, h1, h2, h3, h4, h5]

/-- Witness for C2 at the concrete unrecognized name "foo". -/
theorem C2_unknown_name_empty_witness :
    get_augmentations "foo" true = [] :=
  C2_unknown_name_empty "foo" true (by decide) (by decide) (by decide)
    (by decide) (by decide)

/-- C3: the choose-one color composite at position 6 of 7 of the
"medium" preset has exactly the two children brightness-contrast and
random-gamma when the three-channel flag is false, and exactly the five
children brightness-contrast, CLAHE, hue-saturation-value, rgb-shift,
random-gamma when it is true. -/
theorem C3_medium_color_choice (m : Bool) :
    oneOfChildren ((medium_augmentations false m).getD 5 noOp) =
      [randomBrightnessContrast (some true), randomGamma] ∧
    oneOfChildren ((medium_augmentations true m).getD 5 noOp) =
      [randomBrightnessContrast (some true), clahe, hueSaturationValue,
       rgbShift, randomGamma] :=
  ⟨rfl, rfl⟩

/-- C4: the final (weather) element of the "hard" preset is a no-op
when the three-channel flag is false, and a random-fog descriptor with
probability 0.1 and fog-coefficient bounds [0.01, 0.3] when it is
true. -/
theorem C4_hard_weather_step (m : Bool) :
    (hard_augmentations false m).getLast? = some noOp ∧
    (hard_augmentations true m).getLast? =
      some (randomFog (1/100) (3/10) (1/10)) :=
  ⟨rfl, rfl⟩

/-- C5: for all positive target sizes, positive ordered scales and a
positive ceiling, the random-sized-crop branch of `crop_transform` has
window lower bound `floor(h * minScale)` and upper bound
`floor(min(ceiling, h * maxScale))`; at (1000, 1000) with the default
arguments the window is (750, 1250). -/
theorem C5_crop_transform_window (h w : ℕ) (ms Ms : ℚ) (cap : ℕ)
    (hh : 0 < h) (hw : 0 < w) (hms : 0 < ms) (hle : ms ≤ Ms)
    (hcap : 0 < cap) :
    cropWindow (crop_transform (h, w) ms Ms cap) =
      some (⌊(h : ℚ) * ms⌋, ⌊min (cap : ℚ) ((h : ℚ) * Ms)⌋) ∧
    cropWindow (crop_transform_default (1000, 1000)) = some (750, 1250) := by
  constructor
  · rfl
  · show some (⌊(1000 : ℚ) * (3/4)⌋, ⌊min (5000 : ℚ) ((1000 : ℚ) * (5/4))⌋) =
      some (750, 1250)
    norm_num

/-- Witness for C5 at the default configuration for a 1000 by 1000
target. -/
theorem C5_crop_transform_window_witness :
    cropWindow (crop_transform (1000, 1000) (3/4) (5/4) 5000) =
      some (⌊(1000 : ℚ) * (3/4)⌋, ⌊min (5000 : ℚ) ((1000 : ℚ) * (5/4))⌋) ∧
    cropWindow (crop_transform_default (1000, 1000)) = some (750, 1250) :=
  C5_crop_transform_window 1000 1000 (3/4) (5/4) 5000 (by norm_num)
    (by norm_num) (by norm_num) (by norm_num) (by norm_num)

/-- C6: `crop_transform_xview2` at (512, 512) with the default
arguments yields the random-crop window (204, 384), and its second
branch is a resize to 2048 by 2048 followed by the mask-biased crop. -/
theorem C6_crop_transform_xview2_at_512 :
    cropWindow (crop_transform_xview2_default (512, 512)) =
      some (204, 384) ∧
    secondBranch (crop_transform_xview2_default (512, 512)) =
      some (sequenceOf
        [resize 2048 2048, cropNonEmptyMaskIfExists 512 512]) := by
  constructor
  · show some (⌊(512 : ℚ) * (2/5)⌋, ⌊min (1024 : ℚ) ((512 : ℚ) * (3/4))⌋) =
      some (204, 384)
    norm_num
  · rfl

/-- C7: the mask-dropout flag accepted by the light, medium, hard and
one builders has no effect on the returned sequence. -/
theorem C7_mask_dropout_dead (b m m' : Bool) :
    light_augmentations m = light_augmentations m' ∧
    medium_augmentations b m = medium_augmentations b m' ∧
    hard_augmentations b m = hard_augmentations b m' ∧
    one_augmentations m = one_augmentations m' :=
  ⟨rfl, rfl, rfl, rfl⟩

/-- C8: every preset builder and both crop builders are deterministic:
two calls with identical arguments return structurally equal results. -/
theorem C8_builders_deterministic (s : String) (b m : Bool)
    (sz : ℕ × ℕ) (ms Ms : ℚ) (cap : ℕ) :
    get_augmentations s b = get_augmentations s b ∧
    safe_augmentations = safe_augmentations ∧
    light_augmentations m = light_augmentations m ∧
    medium_augmentations b m = medium_augmentations b m ∧
    hard_augmentations b m = hard_augmentations b m ∧
    one_augmentations m = one_augmentations m ∧
    crop_transform sz ms Ms cap = crop_transform sz ms Ms cap ∧
    crop_transform_xview2 sz ms Ms cap =
      crop_transform_xview2 sz ms Ms cap :=
  ⟨rfl, rfl, rfl, rfl, rfl, rfl, rfl, rfl⟩

/-- C9: for the preset names "safe", "light" and "one" the output of
`get_augmentations` does not depend on the three-channel flag. -/
theorem C9_flag_independent_presets (b b' : Bool) :
    get_augmentations "safe" b = get_augmentations "safe" b' ∧
    get_augmentations "light" b = get_augmentations "light" b' ∧
    get_augmentations "one" b = get_augmentations "one" b' := by
  cases b <;> cases b' <;> exact ⟨rfl, rfl, rfl⟩

/-- C10: in both crop builders the random-crop window depends only on
the height component of the target size: changing only the width leaves
the window unchanged. -/
theorem C10_window_height_only (h w w' : ℕ) (ms Ms : ℚ) (cap : ℕ) :
    cropWindow (crop_transform (h, w) ms Ms cap) =
      cropWindow (crop_transform (h, w') ms Ms cap) ∧
    cropWindow (crop_transform_xview2 (h, w) ms Ms cap) =
      cropWindow (crop_transform_xview2 (h, w') ms Ms cap) :=
  ⟨rfl, rfl⟩
